import Mathlib

/-
  Verification of the permission/authorization engine of the revolchat backend.

  Embedded source files:
  - src/database/permissions.rs : Relationship, Permission, MemberPermissions,
    get_relationship_internal, PermissionCalculator::calculate.
  - src/routes/user.rs : the route-local Relationship enum and its
    get_relationship resolver (inverted mapping over the counterparty entries).

  The guard types (UserRef, ChannelRef, GuildRef from src/guards) and the
  mutual-connection collaborator (src/database/mutual.rs) are not part of the
  source snapshot; they are modelled from the spec where noted.
-/

namespace RevolChat

/-- A stored relationship entry of a user (database user model, as used by
permissions.rs): the identity of the other user and the raw stored status. -/
structure UserRelationship where
  id : String
  status : Int
deriving DecidableEq, Repr

/-- The Relationship enum of src/database/permissions.rs with its repr(u8)
discriminants recorded by Relationship.code. -/
inductive Relationship where
  | Friend
  | Outgoing
  | Incoming
  | Blocked
  | BlockedOther
  | NONE
  | SELF
deriving DecidableEq, Repr

/-- The repr(u8) discriminant of each Relationship constructor. -/
def Relationship.code : Relationship → Nat
  | .Friend => 0
  | .Outgoing => 1
  | .Incoming => 2
  | .Blocked => 3
  | .BlockedOther => 4
  | .NONE => 5
  | .SELF => 6

/-- The Permission enum of permissions.rs: each capability with its repr(u32)
value (a single bit). -/
inductive Permission where
  | Access
  | CreateInvite
  | KickMembers
  | BanMembers
  | ReadMessages
  | SendMessages
  | ManageMessages
  | ManageChannels
  | ManageServer
  | ManageRoles
deriving DecidableEq, Repr

/-- The repr(u32) value of each Permission constructor. -/
def Permission.toU32 : Permission → Nat
  | .Access => 1
  | .CreateInvite => 2
  | .KickMembers => 4
  | .BanMembers => 8
  | .ReadMessages => 16
  | .SendMessages => 32
  | .ManageMessages => 64
  | .ManageChannels => 128
  | .ManageServer => 256
  | .ManageRoles => 512

/-- The inline status match of get_relationship_internal (permissions.rs lines
64 to 71): direct mapping of the stored status of an entry. -/
def direct_status_map (s : Int) : Relationship :=
  if s = 0 then .Friend
  else if s = 1 then .Outgoing
  else if s = 2 then .Incoming
  else if s = 3 then .Blocked
  else if s = 4 then .BlockedOther
  else .NONE

/-- The entry scan loop of get_relationship_internal: first entry whose id
equals the target wins; its status is mapped directly. -/
def lookupRelationship (target_id : String) : List UserRelationship → Relationship
  | [] => .NONE
  | entry :: rest =>
    if entry.id = target_id then direct_status_map entry.status
    else lookupRelationship target_id rest

/-- get_relationship_internal of permissions.rs: SELF on identical ids, else a
first-match scan of the subject relationship entries, NONE when the entries are
absent or hold no match. -/
def get_relationship_internal (user_id target_id : String)
    (relationships : Option (List UserRelationship)) : Relationship :=
  if user_id = target_id then .SELF
  else
    match relationships with
    | some arr => lookupRelationship target_id arr
    | none => .NONE

/-- First entry of a relationship list whose id equals the target (the value
the scan loops of both resolvers act on). -/
def firstEntry (target_id : String) : List UserRelationship → Option UserRelationship
  | [] => none
  | entry :: rest => if entry.id = target_id then some entry else firstEntry target_id rest

/-- Status of the first matching entry of an optional relationship store. -/
def storeLookup (rels : Option (List UserRelationship)) (target_id : String) : Option Int :=
  match rels with
  | some arr => Option.map UserRelationship.status (firstEntry target_id arr)
  | none => none

namespace Routes

/-- The route-local Relationship enum of src/routes/user.rs with its
discriminants recorded by code. -/
inductive Relationship where
  | FRIEND
  | OUTGOING
  | INCOMING
  | BLOCKED
  | BLOCKEDOTHER
  | NONE
  | SELF
deriving DecidableEq, Repr

/-- The discriminant of each route-local Relationship constructor. -/
def Relationship.code : Relationship → Nat
  | .FRIEND => 0
  | .OUTGOING => 1
  | .INCOMING => 2
  | .BLOCKED => 3
  | .BLOCKEDOTHER => 4
  | .NONE => 5
  | .SELF => 6

/-- The inline status match of the route resolver (user.rs lines 149 to 156):
inverted mapping of the status stored on the counterparty side. -/
def inverted_status_map (s : Int) : Relationship :=
  if s = 0 then .FRIEND
  else if s = 1 then .INCOMING
  else if s = 2 then .OUTGOING
  else if s = 3 then .BLOCKEDOTHER
  else if s = 4 then .BLOCKED
  else .NONE

/-- The entry scan loop of the route resolver over the counterparty entries. -/
def lookupRelations (a_id : String) : List UserRelationship → Relationship
  | [] => .NONE
  | entry :: rest =>
    if entry.id = a_id then inverted_status_map entry.status
    else lookupRelations a_id rest

/-- A user as consumed by the route resolver: identity and optional relations. -/
structure User where
  id : String
  relations : Option (List UserRelationship)

/-- get_relationship of src/routes/user.rs: SELF on identical ids, else a scan
of the entries of b for an entry about a, with the inverted status mapping. -/
def get_relationship (a b : User) : Relationship :=
  if a.id = b.id then .SELF
  else
    match b.relations with
    | some arr => lookupRelations a.id arr
    | none => .NONE

end Routes

/-- Modelled from the spec: the UserRef guard (src/guards/auth.rs is not in the
snapshot). It carries the acting user identity; fetch_relationships is
modelled as the loaded optional relationship entries of that user. -/
structure UserRef where
  id : String
  relationships : Option (List UserRelationship)

/-- Modelled from the spec: the ChannelRef guard (src/guards/channel.rs is not
in the snapshot). channel_type is the raw numeric discriminant (0 direct
message, 1 group, 2 guild channel), with the optional fields calculate reads:
recipients, the referenced guild id, and the group owner id. -/
structure ChannelRef where
  channel_type : Nat
  recipients : Option (List String)
  guild : Option String
  owner : Option String

/-- Modelled from the spec: the GuildRef guard (src/guards/guild.rs is not in
the snapshot). It carries the guild owner identity, the default permission
bitfield, and the membership list (presence implies membership). -/
structure GuildRef where
  id : String
  owner : String
  default_permissions : Nat
  members : List String

/-- Modelled from the spec: the membership existence check that calculate runs
through fetch_data_given with an elemMatch filter on the members array — the
fetch succeeds exactly when the acting user id occurs in the membership list. -/
def GuildRef.fetch_data_given_members (g : GuildRef) (uid : String) : Bool :=
  g.members.contains uid

/-- Modelled from the spec: the external collaborators calculate consults —
the context loader resolving a guild id (GuildRef::from), and the
mutual-connection collaborator has_mutual_connection (src/database/mutual.rs is
not in the snapshot; the spec defines it as true iff the two identities share
at least one friend, guild, or group, and the claims treat it as an oracle). -/
structure Env where
  guilds : String → Option GuildRef
  has_mutual_connection : String → String → Bool

/-- The PermissionCalculator of permissions.rs: acting user plus optional
channel and guild contexts. -/
structure PermissionCalculator where
  user : UserRef
  channel : Option ChannelRef
  guild : Option GuildRef

/-- PermissionCalculator::new. -/
def PermissionCalculator.new (user : UserRef) : PermissionCalculator :=
  { user := user, channel := none, guild := none }

/-- The supreme all-bits-set u32 value returned by the owner short-circuits. -/
def u32Max : Nat := 4294967295

/-- The single pass of calculate over the recipients of a direct-message
channel (permissions.rs lines 159 to 166): each item equal to the acting user
sets permissions to 177, every other item overwrites other_user, which starts
as the empty string. -/
def dm_scan (uid : String) (arr : List String) (permissions : Nat) : Nat × String :=
  arr.foldl (fun st item => if item = uid then (177, st.2) else (st.1, item))
    (permissions, "")

/-- The channel-layer dispatch of calculate (permissions.rs lines 155 to 202),
taking the permissions accumulated by the guild layer. Type 0: recipient scan,
relationship downgrade to 1 on Blocked or BlockedOther, else the
mutual-connection branch. Type 1: owner short-circuit to the supreme value,
else the recipient membership baseline. Type 2 and others: unchanged. -/
def channel_phase (env : Env) (user : UserRef) (channel : ChannelRef)
    (permissions : Nat) : Nat :=
  if channel.channel_type = 0 then
    match channel.recipients with
    | some arr =>
      let st := dm_scan user.id arr permissions
      let relationship := get_relationship_internal user.id st.2 user.relationships
      if relationship = Relationship.Blocked ∨ relationship = Relationship.BlockedOther then 1
      else if env.has_mutual_connection user.id st.2 then 177
      else st.1
    | none => permissions
  else if channel.channel_type = 1 then
    let owner_is_user : Bool :=
      match channel.owner with
      | some oid => user.id == oid
      | none => false
    if owner_is_user then u32Max
    else
      match channel.recipients with
      | some arr => if arr.contains user.id then 177 else permissions
      | none => permissions
  else permissions

/-- The tail of calculate: apply the channel layer when a channel context is
present, otherwise return the accumulated permissions. -/
def channel_tail (env : Env) (c : PermissionCalculator) (permissions : Nat) : Nat :=
  match c.channel with
  | some channel => channel_phase env c.user channel permissions
  | none => permissions

/-- PermissionCalculator::calculate of permissions.rs. Guild resolution: an
explicit guild context wins, else a guild-channel (type 2) resolves its
referenced guild through the context loader, else no guild. Guild layer: a
member starts from the guild default permissions and an owning member returns
the supreme value immediately; a non-member keeps zero. Channel layer follows. -/
def calculate (env : Env) (c : PermissionCalculator) : Nat :=
  let guild : Option GuildRef :=
    match c.guild with
    | some value => some value
    | none =>
      match c.channel with
      | some channel =>
        if channel.channel_type ≤ 1 then none
        else if channel.channel_type = 2 then
          match channel.guild with
          | some gid => env.guilds gid
          | none => none
        else none
      | none => none
  match guild with
  | some g =>
    if g.fetch_data_given_members c.user.id then
      if g.owner = c.user.id then u32Max
      else channel_tail env c g.default_permissions
    else channel_tail env c 0
  | none => channel_tail env c 0

/-- The MemberPermissions bitfield of permissions.rs: a single u32 backing
word addressed in MSB0 order. -/
structure MemberPermissions where
  word : Nat

/-- Bit read on the MSB0 backing word: MSB0 position p of a u32 is bit 31 - p
of the integer value. -/
def msb0_bit (w : Nat) (pos : Nat) : Bool :=
  Nat.testBit w (31 - pos)

/-- Accessor get_access (MSB0 position 31). -/
def MemberPermissions.get_access (m : MemberPermissions) : Bool := msb0_bit m.word 31

/-- Accessor get_create_invite (MSB0 position 30). -/
def MemberPermissions.get_create_invite (m : MemberPermissions) : Bool := msb0_bit m.word 30

/-- Accessor get_kick_members (MSB0 position 29). -/
def MemberPermissions.get_kick_members (m : MemberPermissions) : Bool := msb0_bit m.word 29

/-- Accessor get_ban_members (MSB0 position 28). -/
def MemberPermissions.get_ban_members (m : MemberPermissions) : Bool := msb0_bit m.word 28

/-- Accessor get_read_messages (MSB0 position 27). -/
def MemberPermissions.get_read_messages (m : MemberPermissions) : Bool := msb0_bit m.word 27

/-- Accessor get_send_messages (MSB0 position 26). -/
def MemberPermissions.get_send_messages (m : MemberPermissions) : Bool := msb0_bit m.word 26

/-- Accessor get_manage_messages (MSB0 position 25). -/
def MemberPermissions.get_manage_messages (m : MemberPermissions) : Bool := msb0_bit m.word 25

/-- Accessor get_manage_channels (MSB0 position 24). -/
def MemberPermissions.get_manage_channels (m : MemberPermissions) : Bool := msb0_bit m.word 24

/-- Accessor get_manage_server (MSB0 position 23). -/
def MemberPermissions.get_manage_server (m : MemberPermissions) : Bool := msb0_bit m.word 23

/-- Accessor get_manage_roles (MSB0 position 22). -/
def MemberPermissions.get_manage_roles (m : MemberPermissions) : Bool := msb0_bit m.word 22

/-- PermissionCalculator::as_permission: wrap the calculated value. -/
def PermissionCalculator.as_permission (env : Env) (c : PermissionCalculator) :
    MemberPermissions :=
  MemberPermissions.mk (calculate env c)

/-- The status complementary to a stored status under the symmetric-store
discipline the CRUD layer maintains (user.rs writes Outgoing with Incoming and
block_user writes Blocked with BlockedOther on the two sides). -/
def invert_status (s : Int) : Int :=
  if s = 1 then 2
  else if s = 2 then 1
  else if s = 3 then 4
  else if s = 4 then 3
  else s

/-- Mutual consistency of the relationship stores of two users a and b: a
holds an entry about b exactly when b holds one about a, with complementary
valid statuses. -/
def consistent_stores (ra rb : Option (List UserRelationship)) (aid bid : String) : Prop :=
  (storeLookup ra bid = none ∧ storeLookup rb aid = none) ∨
  (∃ s : Int, (s = 0 ∨ s = 1 ∨ s = 2 ∨ s = 3 ∨ s = 4) ∧
    storeLookup ra bid = some s ∧ storeLookup rb aid = some (invert_status s))

/-- The Relationship kind complementary to a given kind when viewed from the
other side of a consistent pair of stores. -/
def Relationship.complement : Relationship → Relationship
  | .Friend => .Friend
  | .Outgoing => .Incoming
  | .Incoming => .Outgoing
  | .Blocked => .BlockedOther
  | .BlockedOther => .Blocked
  | .NONE => .NONE
  | .SELF => .SELF

theorem lookupRelationship_firstEntry (t : String) (arr : List UserRelationship) :
    lookupRelationship t arr =
      (match firstEntry t arr with
       | some e => direct_status_map e.status
       | none => Relationship.NONE) := by
  induction arr with
  | nil => rfl
  | cons e rest ih =>
    by_cases h : e.id = t
    · simp [lookupRelationship, firstEntry, h]
    · simp [lookupRelationship, firstEntry, h, ih]

theorem routes_lookupRelations_firstEntry (t : String) (arr : List UserRelationship) :
    Routes.lookupRelations t arr =
      (match firstEntry t arr with
       | some e => Routes.inverted_status_map e.status
       | none => Routes.Relationship.NONE) := by
  induction arr with
  | nil => rfl
  | cons e rest ih =>
    by_cases h : e.id = t
    · simp [Routes.lookupRelations, firstEntry, h]
    · simp [Routes.lookupRelations, firstEntry, h, ih]

theorem resolve_eq_storeLookup (u t : String) (rels : Option (List UserRelationship))
    (h : u ≠ t) :
    get_relationship_internal u t rels =
      (match storeLookup rels t with
       | some s => direct_status_map s
       | none => Relationship.NONE) := by
  cases rels with
  | none => simp [get_relationship_internal, storeLookup, h]
  | some arr =>
    simp only [get_relationship_internal, if_neg h, storeLookup,
      lookupRelationship_firstEntry]
    cases firstEntry t arr <;> rfl

theorem routes_resolve_eq_storeLookup (a b : Routes.User) (h : a.id ≠ b.id) :
    Routes.get_relationship a b =
      (match storeLookup b.relations a.id with
       | some s => Routes.inverted_status_map s
       | none => Routes.Relationship.NONE) := by
  cases hb : b.relations with
  | none => simp [Routes.get_relationship, storeLookup, h, hb]
  | some arr =>
    simp only [Routes.get_relationship, if_neg h, hb, storeLookup,
      routes_lookupRelations_firstEntry]
    cases firstEntry a.id arr <;> rfl

theorem resolve_complement_of_consistent (aid bid : String)
    (ra rb : Option (List UserRelationship)) (hne : aid ≠ bid)
    (hcons : consistent_stores ra rb aid bid) :
    get_relationship_internal bid aid rb =
      Relationship.complement (get_relationship_internal aid bid ra) := by
  rw [resolve_eq_storeLookup aid bid ra hne,
    resolve_eq_storeLookup bid aid rb (Ne.symm hne)]
  rcases hcons with ⟨h1, h2⟩ | ⟨s, hs, h1, h2⟩
  · rw [h1, h2]
    rfl
  · rw [h1, h2]
    rcases hs with rfl | rfl | rfl | rfl | rfl <;> rfl

theorem dm_scan_left (a b : String) (p : Nat) (h : b ≠ a) :
    dm_scan a [a, b] p = (177, b) := by
  simp [dm_scan, h]

theorem dm_scan_right (a b : String) (p : Nat) (h : a ≠ b) :
    dm_scan b [a, b] p = (177, a) := by
  simp [dm_scan, h]

theorem dm_scan_out (u a b : String) (p : Nat) (h1 : a ≠ u) (h2 : b ≠ u) :
    dm_scan u [a, b] p = (p, b) := by
  simp [dm_scan, h1, h2]

theorem calculate_dm_unfold (env : Env) (user : UserRef) (rc : List String)
    (cg co : Option String) :
    calculate env { user := user, channel := some ⟨0, some rc, cg, co⟩, guild := none } =
      (let st := dm_scan user.id rc 0
       if get_relationship_internal user.id st.2 user.relationships = Relationship.Blocked
          ∨ get_relationship_internal user.id st.2 user.relationships = Relationship.BlockedOther
       then 1
       else if env.has_mutual_connection user.id st.2 then 177
       else st.1) := rfl

theorem dm_result (env : Env) (user : UserRef) (a b : String) (cg co : Option String)
    (hab : a ≠ b) (hmem : user.id = a ∨ user.id = b) :
    calculate env { user := user, channel := some ⟨0, some [a, b], cg, co⟩, guild := none } =
      (if get_relationship_internal user.id (if user.id = a then b else a)
            user.relationships = Relationship.Blocked
          ∨ get_relationship_internal user.id (if user.id = a then b else a)
            user.relationships = Relationship.BlockedOther
       then 1 else 177) := by
  rw [calculate_dm_unfold]
  rcases hmem with h | h
  · have hba : b ≠ a := fun hc => hab hc.symm
    rw [h, dm_scan_left a b 0 hba, if_pos rfl]
    by_cases hr :
        get_relationship_internal a b user.relationships = Relationship.Blocked
          ∨ get_relationship_internal a b user.relationships = Relationship.BlockedOther
      <;> simp [hr]
  · have hba : ¬ (b = a) := fun hc => hab hc.symm
    rw [h, dm_scan_right a b 0 hab, if_neg hba]
    by_cases hr :
        get_relationship_internal b a user.relationships = Relationship.Blocked
          ∨ get_relationship_internal b a user.relationships = Relationship.BlockedOther
      <;> simp [hr]

theorem testBit_true_iff_and (v i : Nat) :
    Nat.testBit v i = true ↔ v &&& 2 ^ i ≠ 0 := by
  rw [Nat.and_two_pow]
  cases h : v.testBit i <;> simp [h, Nat.pow_eq_zero]

/-- Claim C1, counterexample: a user outside the two recipients of a
direct-message channel, with no guild context, does not always get 0 — with a
mutual-connection oracle that affirms every pair, calculate grants the DM
baseline 177 to the outsider c of the channel with recipients a and b. -/
theorem C1_nonparticipant_counterexample :
    calculate ⟨fun _ => none, fun _ _ => true⟩
      { user := ⟨"c", none⟩,
        channel := some ⟨0, some ["a", "b"], none, none⟩,
        guild := none } ≠ 0 ∧
    calculate ⟨fun _ => none, fun _ _ => true⟩
      { user := ⟨"c", none⟩,
        channel := some ⟨0, some ["a", "b"], none, none⟩,
        guild := none } = 177 := by
  decide

/-- Claim C1, amended: for a user who is not one of the two recipients of a
direct-message channel, with no guild context, calculate returns 0 exactly
when the relationship resolved from the user to the trailing recipient is
neither Blocked nor BlockedOther and the mutual-connection oracle denies the
pair; a blocked-kind relationship yields 1 and an affirmed oracle yields 177. -/
theorem C1_nonparticipant_amended (env : Env) (user : UserRef) (a b : String)
    (cg co : Option String) (h1 : user.id ≠ a) (h2 : user.id ≠ b) :
    calculate env
      { user := user, channel := some ⟨0, some [a, b], cg, co⟩,
        guild := none } =
      (if get_relationship_internal user.id b user.relationships = Relationship.Blocked
          ∨ get_relationship_internal user.id b user.relationships = Relationship.BlockedOther
       then 1
       else if env.has_mutual_connection user.id b then 177
       else 0) := by
  rw [calculate_dm_unfold, dm_scan_out user.id a b 0 (Ne.symm h1) (Ne.symm h2)]

/-- Claim C1, witness at a concrete outsider with empty store and a denying
oracle: the amended statement evaluates to 0 there. -/
theorem C1_nonparticipant_witness :
    calculate ⟨fun _ => none, fun _ _ => false⟩
      { user := ⟨"c", none⟩,
        channel := some ⟨0, some ["a", "b"], none, none⟩,
        guild := none } = 0 := by
  rw [C1_nonparticipant_amended ⟨fun _ => none, fun _ _ => false⟩ ⟨"c", none⟩
    "a" "b" none none (by decide) (by decide)]
  decide

/-- Claim C2, counterexample: a user who owns a guild but does not occur in
its membership list gets 0 rather than the supreme value, so the owner
short-circuit is not independent of the membership list contents. -/
theorem C2_owner_counterexample :
    calculate ⟨fun _ => none, fun _ _ => false⟩
      { user := ⟨"u", none⟩, channel := none,
        guild := some ⟨"g", "u", 5, []⟩ } ≠ u32Max ∧
    calculate ⟨fun _ => none, fun _ _ => false⟩
      { user := ⟨"u", none⟩, channel := none,
        guild := some ⟨"g", "u", 5, []⟩ } = 0 := by
  decide

/-- Claim C2, amended: for a user who passes the guild membership check and
equals the guild owner, calculate returns the supreme all-bits-set value,
regardless of any channel context and of the default permission bitfield. -/
theorem C2_owner_supreme (env : Env) (user : UserRef) (g : GuildRef)
    (ch : Option ChannelRef)
    (hmem : g.fetch_data_given_members user.id = true)
    (hown : g.owner = user.id) :
    calculate env { user := user, channel := ch, guild := some g } = u32Max := by
  simp [calculate, hmem, hown]

/-- Claim C2, witness: a concrete owner who is also a member receives the
supreme value. -/
theorem C2_owner_supreme_witness :
    calculate ⟨fun _ => none, fun _ _ => false⟩
      { user := ⟨"u", none⟩, channel := none,
        guild := some ⟨"g", "u", 5, ["u"]⟩ } = u32Max :=
  C2_owner_supreme ⟨fun _ => none, fun _ _ => false⟩ ⟨"u", none⟩
    ⟨"g", "u", 5, ["u"]⟩ none (by decide) rfl

/-- Claim C3: a recipient of a direct-message channel whose resolved
relationship to the other recipient is Blocked or BlockedOther gets exactly 1
(the Access bit only), for every mutual-connection oracle; and over mutually
consistent stores both participants, blocker and blocked, get exactly 1. -/
theorem C3_dm_blocked_access_only :
    (∀ (env : Env) (user : UserRef) (a b : String) (cg co : Option String),
      a ≠ b → (user.id = a ∨ user.id = b) →
      (get_relationship_internal user.id (if user.id = a then b else a)
          user.relationships = Relationship.Blocked ∨
       get_relationship_internal user.id (if user.id = a then b else a)
          user.relationships = Relationship.BlockedOther) →
      calculate env
        { user := user, channel := some ⟨0, some [a, b], cg, co⟩,
          guild := none } = 1)
  ∧ (∀ (env : Env) (ua ub : UserRef) (cg co : Option String),
      ua.id ≠ ub.id →
      consistent_stores ua.relationships ub.relationships ua.id ub.id →
      (get_relationship_internal ua.id ub.id ua.relationships = Relationship.Blocked ∨
       get_relationship_internal ua.id ub.id ua.relationships = Relationship.BlockedOther) →
      calculate env
        { user := ua, channel := some ⟨0, some [ua.id, ub.id], cg, co⟩,
          guild := none } = 1 ∧
      calculate env
        { user := ub, channel := some ⟨0, some [ua.id, ub.id], cg, co⟩,
          guild := none } = 1) := by
  constructor
  · intro env user a b cg co hab hmem hrel
    rw [dm_result env user a b cg co hab hmem, if_pos hrel]
  · intro env ua ub cg co hne hcons hrel
    have hcomp := resolve_complement_of_consistent ua.id ub.id
      ua.relationships ub.relationships hne hcons
    constructor
    · rw [dm_result env ua ua.id ub.id cg co hne (Or.inl rfl)]
      simp only [if_pos rfl] at hrel ⊢
      simp [hrel]
    · rw [dm_result env ub ua.id ub.id cg co hne (Or.inr rfl)]
      rcases hrel with hr | hr <;>
        simp [Ne.symm hne, hcomp, hr, Relationship.complement]

/-- Claim C3, witness: concrete channel with recipients a and b where a has
blocked b and the stores are consistent; both sides evaluate to 1, under an
oracle that affirms every pair. -/
theorem C3_dm_blocked_witness :
    calculate ⟨fun _ => none, fun _ _ => true⟩
      { user := ⟨"a", some [⟨"b", 3⟩]⟩,
        channel := some ⟨0, some ["a", "b"], none, none⟩,
        guild := none } = 1 ∧
    calculate ⟨fun _ => none, fun _ _ => true⟩
      { user := ⟨"b", some [⟨"a", 4⟩]⟩,
        channel := some ⟨0, some ["a", "b"], none, none⟩,
        guild := none } = 1 :=
  C3_dm_blocked_access_only.2 ⟨fun _ => none, fun _ _ => true⟩
    ⟨"a", some [⟨"b", 3⟩]⟩ ⟨"b", some [⟨"a", 4⟩]⟩ none none (by decide)
    (Or.inr ⟨3, Or.inr (Or.inr (Or.inr (Or.inl rfl))), by decide, by decide⟩)
    (Or.inl (by decide))

/-- Claim C4: a recipient of a direct-message channel whose resolved
relationship to the other recipient is neither Blocked nor BlockedOther gets
exactly the DM baseline 177, independent of the mutual-connection oracle;
177 is the word with the Access, ReadMessages, SendMessages and bit-7
capabilities set. -/
theorem C4_dm_baseline (env : Env) (user : UserRef) (a b : String)
    (cg co : Option String) (hab : a ≠ b) (hmem : user.id = a ∨ user.id = b)
    (h1 : get_relationship_internal user.id (if user.id = a then b else a)
            user.relationships ≠ Relationship.Blocked)
    (h2 : get_relationship_internal user.id (if user.id = a then b else a)
            user.relationships ≠ Relationship.BlockedOther) :
    calculate env
      { user := user, channel := some ⟨0, some [a, b], cg, co⟩,
        guild := none } = 177 ∧
    (177 : Nat) = Permission.Access.toU32 ||| Permission.ReadMessages.toU32
      ||| Permission.SendMessages.toU32 ||| 128 := by
  constructor
  · rw [dm_result env user a b cg co hab hmem]
    simp [h1, h2]
  · decide

/-- Claim C4, witness: a concrete participant with no relationship entry and a
denying oracle receives 177. -/
theorem C4_dm_baseline_witness :
    calculate ⟨fun _ => none, fun _ _ => false⟩
      { user := ⟨"b", none⟩,
        channel := some ⟨0, some ["a", "b"], none, none⟩,
        guild := none } = 177 ∧
    (177 : Nat) = Permission.Access.toU32 ||| Permission.ReadMessages.toU32
      ||| Permission.SendMessages.toU32 ||| 128 :=
  C4_dm_baseline ⟨fun _ => none, fun _ _ => false⟩ ⟨"b", none⟩ "a" "b"
    none none (by decide) (Or.inr rfl) (by decide) (by decide)

/-- Claim C5: get_relationship_internal returns SELF whenever the two ids are
equal; for distinct ids it returns NONE when the store is absent or holds no
entry for the target; and for distinct ids the first matching entry decides
the result through the direct status mapping, whose table sends 0 to Friend,
1 to Outgoing, 2 to Incoming, 3 to Blocked and 4 to BlockedOther. -/
theorem C5_resolver_direct (u t : String) (rels : Option (List UserRelationship)) :
    (u = t → get_relationship_internal u t rels = Relationship.SELF)
  ∧ (u ≠ t → rels = none → get_relationship_internal u t rels = Relationship.NONE)
  ∧ (u ≠ t → ∀ arr, rels = some arr → firstEntry t arr = none →
      get_relationship_internal u t rels = Relationship.NONE)
  ∧ (u ≠ t → ∀ arr e, rels = some arr → firstEntry t arr = some e →
      get_relationship_internal u t rels = direct_status_map e.status)
  ∧ (direct_status_map 0 = Relationship.Friend
     ∧ direct_status_map 1 = Relationship.Outgoing
     ∧ direct_status_map 2 = Relationship.Incoming
     ∧ direct_status_map 3 = Relationship.Blocked
     ∧ direct_status_map 4 = Relationship.BlockedOther) := by
  refine ⟨?_, ?_, ?_, ?_, by decide⟩
  · intro h
    simp [get_relationship_internal, h]
  · intro h hrels
    subst hrels
    simp [get_relationship_internal, h]
  · intro h arr hrels hfe
    subst hrels
    simp [get_relationship_internal, h, lookupRelationship_firstEntry, hfe]
  · intro h arr e hrels hfe
    subst hrels
    simp [get_relationship_internal, h, lookupRelationship_firstEntry, hfe]

/-- Claim C5, witness: over the store holding one entry about b with stored
status 1, the resolver applied from a to b yields Outgoing. -/
theorem C5_resolver_direct_witness :
    get_relationship_internal "a" "b" (some [⟨"b", 1⟩]) = Relationship.Outgoing := by
  have h := (C5_resolver_direct "a" "b" (some [⟨"b", 1⟩])).2.2.2.1 (by decide)
    [⟨"b", 1⟩] ⟨"b", 1⟩ rfl (by decide)
  exact h.trans (by decide)

/-- Claim C6: over mutually consistent stores of two distinct users a and b,
the direct-mapping resolver of permissions.rs applied to the entries of a and
the inverted-mapping route resolver applied from a over the counterparty
entries of b return the same Relationship kind (equal discriminants). -/
theorem C6_resolver_refinement (aid bid : String)
    (ra rb : Option (List UserRelationship))
    (hne : aid ≠ bid) (hcons : consistent_stores ra rb aid bid) :
    Relationship.code (get_relationship_internal aid bid ra)
      = Routes.Relationship.code
          (Routes.get_relationship ⟨aid, ra⟩ ⟨bid, rb⟩) := by
  rw [resolve_eq_storeLookup aid bid ra hne,
    routes_resolve_eq_storeLookup ⟨aid, ra⟩ ⟨bid, rb⟩ hne]
  rcases hcons with ⟨h1, h2⟩ | ⟨s, hs, h1, h2⟩
  · rw [h1, h2]
    rfl
  · rw [h1, h2]
    rcases hs with rfl | rfl | rfl | rfl | rfl <;> rfl

/-- Claim C6, witness: a sent b a friend request; the a-side store holds
status 1 about b, the b-side store holds status 2 about a, and both resolvers
classify the pair identically. -/
theorem C6_resolver_refinement_witness :
    Relationship.code (get_relationship_internal "a" "b" (some [⟨"b", 1⟩]))
      = Routes.Relationship.code
          (Routes.get_relationship ⟨"a", some [⟨"b", 1⟩]⟩ ⟨"b", some [⟨"a", 2⟩]⟩) :=
  C6_resolver_refinement "a" "b" (some [⟨"b", 1⟩]) (some [⟨"a", 2⟩]) (by decide)
    (Or.inr ⟨1, Or.inr (Or.inl rfl), by decide, by decide⟩)

/-- Claim C7: over mutually consistent stores of two distinct users, resolving
from the b side over the b entries returns exactly the complement of the kind
resolved from the a side over the a entries; the complement pairs Friend with
Friend, Outgoing with Incoming, Blocked with BlockedOther and NONE with NONE. -/
theorem C7_resolver_complementary (aid bid : String)
    (ra rb : Option (List UserRelationship)) (hne : aid ≠ bid)
    (hcons : consistent_stores ra rb aid bid) :
    get_relationship_internal bid aid rb
      = Relationship.complement (get_relationship_internal aid bid ra) ∧
    (Relationship.complement Relationship.Friend = Relationship.Friend
     ∧ Relationship.complement Relationship.Outgoing = Relationship.Incoming
     ∧ Relationship.complement Relationship.Incoming = Relationship.Outgoing
     ∧ Relationship.complement Relationship.Blocked = Relationship.BlockedOther
     ∧ Relationship.complement Relationship.BlockedOther = Relationship.Blocked
     ∧ Relationship.complement Relationship.NONE = Relationship.NONE) :=
  ⟨resolve_complement_of_consistent aid bid ra rb hne hcons, by decide⟩

/-- Claim C7, witness: a blocked b; the a side resolves Blocked and the b side
resolves BlockedOther, its complement. -/
theorem C7_resolver_complementary_witness :
    get_relationship_internal "b" "a" (some [⟨"a", 4⟩])
      = Relationship.complement (get_relationship_internal "a" "b" (some [⟨"b", 3⟩])) :=
  (C7_resolver_complementary "a" "b" (some [⟨"b", 3⟩]) (some [⟨"a", 4⟩]) (by decide)
    (Or.inr ⟨3, Or.inr (Or.inr (Or.inr (Or.inl rfl))), by decide, by decide⟩)).1

/-- Claim C8: every accessor of the MemberPermissions bitfield over a u32
backing word agrees with the Permission enum bit assignment: MSB0 positions 31
down to 22 read bits 0 through 9 of the integer value. -/
theorem C8_bitfield_accessors (v : Nat) (_hv : v < 4294967296) :
    ((MemberPermissions.mk v).get_access = true ↔ v &&& Permission.Access.toU32 ≠ 0)
  ∧ ((MemberPermissions.mk v).get_create_invite = true
      ↔ v &&& Permission.CreateInvite.toU32 ≠ 0)
  ∧ ((MemberPermissions.mk v).get_kick_members = true
      ↔ v &&& Permission.KickMembers.toU32 ≠ 0)
  ∧ ((MemberPermissions.mk v).get_ban_members = true
      ↔ v &&& Permission.BanMembers.toU32 ≠ 0)
  ∧ ((MemberPermissions.mk v).get_read_messages = true
      ↔ v &&& Permission.ReadMessages.toU32 ≠ 0)
  ∧ ((MemberPermissions.mk v).get_send_messages = true
      ↔ v &&& Permission.SendMessages.toU32 ≠ 0)
  ∧ ((MemberPermissions.mk v).get_manage_messages = true
      ↔ v &&& Permission.ManageMessages.toU32 ≠ 0)
  ∧ ((MemberPermissions.mk v).get_manage_channels = true
      ↔ v &&& Permission.ManageChannels.toU32 ≠ 0)
  ∧ ((MemberPermissions.mk v).get_manage_server = true
      ↔ v &&& Permission.ManageServer.toU32 ≠ 0)
  ∧ ((MemberPermissions.mk v).get_manage_roles = true
      ↔ v &&& Permission.ManageRoles.toU32 ≠ 0) := by
  refine ⟨?_, ?_, ?_, ?_, ?_, ?_, ?_, ?_, ?_, ?_⟩
  · show Nat.testBit v 0 = true ↔ v &&& 1 ≠ 0
    simp
  · show Nat.testBit v 1 = true ↔ v &&& 2 ≠ 0
    simpa using testBit_true_iff_and v 1
  · show Nat.testBit v 2 = true ↔ v &&& 4 ≠ 0
    simpa using testBit_true_iff_and v 2
  · show Nat.testBit v 3 = true ↔ v &&& 8 ≠ 0
    simpa using testBit_true_iff_and v 3
  · show Nat.testBit v 4 = true ↔ v &&& 16 ≠ 0
    simpa using testBit_true_iff_and v 4
  · show Nat.testBit v 5 = true ↔ v &&& 32 ≠ 0
    simpa using testBit_true_iff_and v 5
  · show Nat.testBit v 6 = true ↔ v &&& 64 ≠ 0
    simpa using testBit_true_iff_and v 6
  · show Nat.testBit v 7 = true ↔ v &&& 128 ≠ 0
    simpa using testBit_true_iff_and v 7
  · show Nat.testBit v 8 = true ↔ v &&& 256 ≠ 0
    simpa using testBit_true_iff_and v 8
  · show Nat.testBit v 9 = true ↔ v &&& 512 ≠ 0
    simpa using testBit_true_iff_and v 9

/-- Claim C8, witness at the DM baseline word 177: the Access accessor agrees
with the mask of the Access capability. -/
theorem C8_bitfield_accessors_witness :
    (MemberPermissions.mk 177).get_access = true
      ↔ (177 : Nat) &&& Permission.Access.toU32 ≠ 0 :=
  (C8_bitfield_accessors 177 (by norm_num)).1

/-- Claim C9: calculate is a total function and degrades gracefully — with no
channel and no guild context it returns 0, and a guild channel whose guild
reference is absent or resolves to nothing contributes zero, so the result is
again 0. -/
theorem C9_graceful_zero :
    (∀ (env : Env) (user : UserRef),
      calculate env { user := user, channel := none, guild := none } = 0)
  ∧ (∀ (env : Env) (user : UserRef) (ch : ChannelRef),
      ch.channel_type = 2 →
      (ch.guild = none ∨ (∃ gid, ch.guild = some gid ∧ env.guilds gid = none)) →
      calculate env { user := user, channel := some ch, guild := none } = 0) := by
  constructor
  · intro env user
    rfl
  · intro env user ch htype hguild
    rcases hguild with hg | ⟨gid, hg, hdb⟩
    · simp [calculate, channel_tail, channel_phase, htype, hg]
    · simp [calculate, channel_tail, channel_phase, htype, hg, hdb]

/-- Claim C9, witness: both graceful-zero cases at concrete inputs. -/
theorem C9_graceful_zero_witness :
    calculate ⟨fun _ => none, fun _ _ => false⟩
      { user := ⟨"u", none⟩, channel := none, guild := none } = 0 ∧
    calculate ⟨fun _ => none, fun _ _ => false⟩
      { user := ⟨"u", none⟩, channel := some ⟨2, none, some "g", none⟩,
        guild := none } = 0 :=
  ⟨C9_graceful_zero.1 ⟨fun _ => none, fun _ _ => false⟩ ⟨"u", none⟩,
   C9_graceful_zero.2 ⟨fun _ => none, fun _ _ => false⟩ ⟨"u", none⟩
     ⟨2, none, some "g", none⟩ rfl (Or.inr ⟨"g", rfl, rfl⟩)⟩

/-- Claim C10: with a guild context and no channel context, a member who is
not the owner receives exactly the guild default permission bitfield, and a
non-member receives 0. -/
theorem C10_member_default_permissions :
    (∀ (env : Env) (user : UserRef) (g : GuildRef),
      g.fetch_data_given_members user.id = true → g.owner ≠ user.id →
      calculate env { user := user, channel := none, guild := some g }
        = g.default_permissions)
  ∧ (∀ (env : Env) (user : UserRef) (g : GuildRef),
      g.fetch_data_given_members user.id = false →
      calculate env { user := user, channel := none, guild := some g } = 0) := by
  constructor
  · intro env user g hmem hown
    simp [calculate, channel_tail, hmem, hown]
  · intro env user g hmem
    simp [calculate, channel_tail, hmem]

/-- Claim C10, witness: a plain member of a guild with default bitfield 17
receives 17, and a non-member of the same guild receives 0. -/
theorem C10_member_default_permissions_witness :
    calculate ⟨fun _ => none, fun _ _ => false⟩
      { user := ⟨"u", none⟩, channel := none,
        guild := some ⟨"g", "o", 17, ["u"]⟩ } = 17 ∧
    calculate ⟨fun _ => none, fun _ _ => false⟩
      { user := ⟨"w", none⟩, channel := none,
        guild := some ⟨"g", "o", 17, ["u"]⟩ } = 0 :=
  ⟨C10_member_default_permissions.1 ⟨fun _ => none, fun _ _ => false⟩ ⟨"u", none⟩
     ⟨"g", "o", 17, ["u"]⟩ (by decide) (by decide),
   C10_member_default_permissions.2 ⟨fun _ => none, fun _ _ => false⟩ ⟨"w", none⟩
     ⟨"g", "o", 17, ["u"]⟩ (by decide)⟩

end RevolChat
